import Mathlib

/-!
Verification of the solar-datasheet extraction pipeline (`solar_parser.py`,
`app.py`).  The Python code is shallowly embedded: JSON values become the
inductive `JValue`, Python dictionaries become association lists in insertion
order, Python exceptions become `Except PyErr` / the `Outcome` type (which
also records process termination through `sys.exit`), and the external
collaborators (pdfplumber, the Bedrock endpoint, `json.loads`) become
oracle parameters of the embedded functions.
-/

namespace SolarVerify

/-- A parsed JSON value as Python's `json.loads` produces it: `null` becomes
`None`, objects become dicts that keep insertion order (modelled as
association lists), numbers are modelled as rationals. -/
inductive JValue where
  | null
  | bool (b : Bool)
  | num (q : ℚ)
  | str (s : String)
  | arr (elems : List JValue)
  | obj (fields : List (String × JValue))

/-- A Python dict holding JSON data: keys in insertion order. -/
abbrev JObj := List (String × JValue)

/-- The Python exception classes the embedded code can raise, each carrying
the text `str(e)` would show. -/
inductive PyErr where
  | attributeError (msg : String)
  | typeError (msg : String)
  | keyError (msg : String)
  | valueError (msg : String)
  | fileNotFoundError (msg : String)

/-- `str(e)` for an exception: the message it carries. -/
def PyErr.msg : PyErr → String
  | .attributeError m => m
  | .typeError m => m
  | .keyError m => m
  | .valueError m => m
  | .fileNotFoundError m => m

/-- Python's type name of a value, as it appears in error messages. -/
def typeName : JValue → String
  | .null => "NoneType"
  | .bool _ => "bool"
  | .num _ => "float"
  | .str _ => "str"
  | .arr _ => "list"
  | .obj _ => "dict"

/-- `v is None` in Python. -/
def JValue.isNull : JValue → Bool
  | .null => true
  | _ => false

/-- Python truthiness of a JSON value. -/
def truthy : JValue → Bool
  | .null => false
  | .bool b => b
  | .num q => if q = 0 then false else true
  | .str s => if s = "" then false else true
  | .arr xs => !xs.isEmpty
  | .obj kvs => !kvs.isEmpty

/-- `o.get(k, d)`: on a dict, the stored value or the default; on any other
value an `AttributeError`, as in Python. -/
def pyGetD (o : JValue) (k : String) (d : JValue) : Except PyErr JValue :=
  match o with
  | .obj kvs => .ok ((kvs.lookup k).getD d)
  | v => .error (.attributeError ("\x27" ++ typeName v ++ "\x27 object has no attribute \x27get\x27"))

/-- `o.get(k)`: the one-argument form defaults to `None`. -/
def pyGet (o : JValue) (k : String) : Except PyErr JValue :=
  pyGetD o k .null

/-- `o[k]`: subscription, raising `KeyError` for a missing key and
`TypeError` on a non-dict. -/
def pySubscript (o : JValue) (k : String) : Except PyErr JValue :=
  match o with
  | .obj kvs =>
    match kvs.lookup k with
    | some v => .ok v
    | none => .error (.keyError ("\x27" ++ k ++ "\x27"))
  | v => .error (.typeError ("\x27" ++ typeName v ++ "\x27 object is not subscriptable"))

/-- `for x in v`: the sequence Python iteration yields.  Lists yield their
elements, strings their characters (as one-character strings), dicts their
keys; `None`, booleans and numbers are not iterable. -/
def iterList : JValue → Except PyErr (List JValue)
  | .arr xs => .ok xs
  | .str s => .ok (s.toList.map (fun c => .str (String.mk [c])))
  | .obj kvs => .ok (kvs.map (fun p => .str p.1))
  | v => .error (.typeError ("\x27" ++ typeName v ++ "\x27 object is not iterable"))

/-- The items of a sequence being joined must all be strings. -/
def strItems : List JValue → Except PyErr (List String)
  | [] => .ok []
  | .str s :: rest => (strItems rest).map (fun ss => s :: ss)
  | v :: _ => .error (.typeError ("sequence item: expected str instance, " ++ typeName v ++ " found"))

/-- `sep.join(v)`. -/
def pyJoin (sep : String) (v : JValue) : Except PyErr String := do
  let xs ← iterList v
  let ss ← strItems xs
  pure (String.intercalate sep ss)

/-- One comparison step of Python's `max`: numbers and strings compare,
anything else raises `TypeError`. -/
def pyMax2 (a b : JValue) : Except PyErr JValue :=
  match a, b with
  | .num p, .num q => .ok (.num (max p q))
  | .str s, .str t => .ok (.str (max s t))
  | _, v => .error (.typeError ("\x27>\x27 not supported for instances including " ++ typeName v))

/-- `max(xs)` over a list: empty input raises `ValueError`, a single element
is returned without comparing, otherwise elements are compared left to
right. -/
def pyMax : List JValue → Except PyErr JValue
  | [] => .error (.valueError "max() arg is an empty sequence")
  | x :: xs => xs.foldlM pyMax2 x

/-- The decimal digits of a fractional part `q ∈ [0, 1)`, up to the fuel. -/
def fracDigits : Nat → ℚ → String
  | 0, _ => ""
  | n + 1, q =>
    if q = 0 then ""
    else
      let d : Int := (q * 10).num / ((q * 10).den : Int)
      toString d ++ fracDigits n (q * 10 - (d : ℚ))

/-- Decimal rendering of a JSON number, mirroring how Python prints the
floats and ints `json.loads` produces for datasheet values. -/
def ratToStr (q : ℚ) : String :=
  let a : ℚ := if q < 0 then -q else q
  let ip : Int := a.num / (a.den : Int)
  let sign : String := if q < 0 then "-" else ""
  if a - (ip : ℚ) = 0 then sign ++ toString ip
  else sign ++ toString ip ++ "." ++ fracDigits 17 (a - (ip : ℚ))

mutual

/-- Python `repr` of a JSON value (used by `str` on lists and dicts). -/
def pyRepr : JValue → String
  | .null => "None"
  | .bool true => "True"
  | .bool false => "False"
  | .num q => ratToStr q
  | .str s => "\x27" ++ s ++ "\x27"
  | .arr xs => "[" ++ pyReprItems xs ++ "]"
  | .obj kvs => "\x7b" ++ pyReprFields kvs ++ "\x7d"

/-- Comma-separated reprs of list items. -/
def pyReprItems : List JValue → String
  | [] => ""
  | [x] => pyRepr x
  | x :: y :: rest => pyRepr x ++ ", " ++ pyReprItems (y :: rest)

/-- Comma-separated reprs of dict entries. -/
def pyReprFields : List (String × JValue) → String
  | [] => ""
  | [(k, v)] => "\x27" ++ k ++ "\x27: " ++ pyRepr v
  | (k, v) :: y :: rest => "\x27" ++ k ++ "\x27: " ++ pyRepr v ++ ", " ++ pyReprFields (y :: rest)

end

/-- `str(v)`, as an f-string interpolates a value. -/
def pyStr : JValue → String
  | .str s => s
  | v => pyRepr v

/-- The characters Python's `str.strip()` removes. -/
def pyIsSpace (c : Char) : Bool :=
  c = ' ' || c = '\t' || c = '\n' || c = '\r' || c = '\x0b' || c = '\x0c'

/-- `s.strip()` over the character list of a string. -/
def pyStrip (s : List Char) : List Char :=
  ((s.dropWhile pyIsSpace).reverse.dropWhile pyIsSpace).reverse

/-- The model client's clean-up of a completion
(`solar_parser.parse_with_bedrock`, the fence-stripping block): strip
whitespace, drop a leading markdown JSON fence marker, drop a trailing
closing fence marker. -/
def cleanFence (s : List Char) : List Char :=
  let t := pyStrip s
  let t1 := if ("```json".toList).isPrefixOf t then t.drop 7 else t
  if ("```".toList).isSuffixOf t1 then t1.take (t1.length - 3) else t1

/-- The observable result of running a piece of the pipeline: a value, a
propagating Python exception, or process termination through `sys.exit`
(which raises `SystemExit`, a `BaseException` that `except Exception`
does not catch). -/
inductive Outcome (α : Type) where
  | ok (a : α)
  | raised (e : PyErr)
  | exited (code : Nat)

/-- Page texts concatenated in order, each followed by a newline
(`text += page.extract_text() + "\n"`); `none` stands for a page whose
`extract_text()` returned `None`, which makes the `+` raise. -/
def concatPages (acc : String) : List (Option String) → Option String
  | [] => some acc
  | none :: _ => none
  | some t :: rest => concatPages (acc ++ (t ++ "\n")) rest

/-- `solar_parser.extract_text_from_pdf`.  The argument is the pdfplumber
oracle: `none` when `pdfplumber.open` raises for the path, otherwise the
per-page `extract_text()` results.  Any exception is caught, an error is
printed, and the process exits with status 1. -/
def extract_text_from_pdf (pdf : Option (List (Option String))) : Outcome String :=
  match pdf with
  | none => .exited 1
  | some pages =>
    match concatPages "" pages with
    | none => .exited 1
    | some t => .ok t

/-- What the Bedrock call produced: a `botocore` `ClientError`, some other
exception while reading the response body, or the completion text. -/
inductive BedrockResult where
  | clientError (msg : String)
  | otherError (msg : String)
  | text (s : String)

/-- `solar_parser.parse_with_bedrock`.  `jsonLoads` is the `json.loads`
oracle (`none` = `json.JSONDecodeError`).  Every failure branch prints a
diagnostic and exits with status 1. -/
def parse_with_bedrock (resp : BedrockResult) (jsonLoads : List Char → Option JValue) :
    Outcome JValue :=
  match resp with
  | .clientError _ => .exited 1
  | .otherError _ => .exited 1
  | .text s =>
    match jsonLoads (cleanFence s.toList) with
    | none => .exited 1
    | some v => .ok v

/-- The fixed top-level key order of `solar_parser.process_pdf`. -/
def ordered_keys : List String :=
  ["product", "electrical_specs", "mechanical_specs", "temperature_specs",
   "warranty", "certifications"]

/-- The dict comprehension
`{k: raw_json.get(k) for k in ordered_keys if k in raw_json}` applied to a
parsed JSON object. -/
def canonicalize (kvs : JObj) : JObj :=
  ordered_keys.filterMap (fun k => (kvs.lookup k).map (fun v => (k, v)))

/-- Substring test, for Python's `in` on strings. -/
def containsSub (n : List Char) : List Char → Bool
  | [] => n.isEmpty
  | c :: rest => n.isPrefixOf (c :: rest) || containsSub n rest

/-- Whether a list element equals the string `k` under Python `==`. -/
def eqStrKey (k : String) : JValue → Bool
  | .str s => s = k
  | _ => false

/-- The key-order comprehension of `process_pdf` on an arbitrary parsed
value: on a dict it filters and reorders; on a list or string the `in`
test can succeed and the following `.get` raises `AttributeError`; on
other values `in` itself raises `TypeError`. -/
def canonOutput : JValue → Except PyErr JObj
  | .obj kvs => .ok (canonicalize kvs)
  | .arr xs =>
    if ordered_keys.any (fun k => xs.any (eqStrKey k)) then
      .error (.attributeError "\x27list\x27 object has no attribute \x27get\x27")
    else .ok []
  | .str s =>
    if ordered_keys.any (fun k => containsSub k.toList s.toList) then
      .error (.attributeError "\x27str\x27 object has no attribute \x27get\x27")
    else .ok []
  | v => .error (.typeError ("argument of type \x27" ++ typeName v ++ "\x27 is not iterable"))

/-- Lines 161-163 of `solar_parser.generate_summary`: collect the non-null
`efficiency_pct` entries of `elec.get('power_variants', [])` and take their
`max`, or the string `"N/A"` when there are none. -/
def maxEfficiencyOf (elec : JValue) : Except PyErr JValue := do
  let pv ← pyGetD elec "power_variants" (.arr [])
  let vs ← iterList pv
  let effs ← vs.mapM (fun v => pyGet v "efficiency_pct")
  let efficiency_values := effs.filter (fun x => !x.isNull)
  if efficiency_values.isEmpty then pure (.str "N/A")
  else pyMax efficiency_values

/-- The power-range fragment of the summary template (line 169):
`{product.get('wattage_range', {}).get('min')}W - {product.get('wattage_range', {}).get('max')}W`. -/
def powerRange (product : JValue) : Except PyErr String := do
  let w1 ← pyGetD product "wattage_range" (.obj [])
  let mn ← pyGet w1 "min"
  let w2 ← pyGetD product "wattage_range" (.obj [])
  let mx ← pyGet w2 "max"
  pure (pyStr mn ++ "W - " ++ pyStr mx ++ "W")

/-- The body of `solar_parser.generate_summary` before its `except` clause,
step for step: the five `data.get(...)`, the unused `max_power`
computation, the max-efficiency computation, then the f-string template
with its interpolations evaluated left to right. -/
def genSummaryCore (data : JValue) : Except PyErr String := do
  let product ← pyGetD data "product" (.obj [])
  let elec ← pyGetD data "electrical_specs" (.obj [])
  let mech ← pyGetD data "mechanical_specs" (.obj [])
  let temp ← pyGetD data "temperature_specs" (.obj [])
  let warranty ← pyGetD data "warranty" (.obj [])
  let wr0 ← pyGet product "wattage_range"
  let _max_power ←
    if truthy wr0 then do
      let wrv ← pySubscript product "wattage_range"
      let mx ← pyGet wrv "max"
      pure (pyStr mx ++ "W")
    else pure "N/A"
  let max_efficiency ← maxEfficiencyOf elec
  let manufacturer ← pyGetD product "manufacturer" (.str "Unknown")
  let series ← pyGetD product "series" (.str "Solar Module")
  let mt ← pyGetD product "model_types" (.arr [])
  let models ← pyJoin ", " mt
  let pr ← powerRange product
  let msv ← pyGet elec "max_system_voltage_v"
  let lenv ← pyGet mech "length_mm"
  let widv ← pyGet mech "width_mm"
  let wkg ← pyGet mech "weight_kg"
  let ct ← pyGet mech "cell_type"
  let or1 ← pyGetD temp "operating_range_c" (.obj [])
  let otMin ← pyGet or1 "min"
  let or2 ← pyGetD temp "operating_range_c" (.obj [])
  let otMax ← pyGet or2 "max"
  let tc ← pyGet temp "temp_coefficient_pmax_pct_per_c"
  let wy ← pyGet warranty "years"
  let wdr ← pyGet warranty "degradation_rate_pct"
  pure ("\n## Product Overview\n**" ++ pyStr manufacturer ++ " " ++ pyStr series
    ++ "**\n*Models*: " ++ models
    ++ "\n*Power Range*: " ++ pr
    ++ "\n\n## Key Specifications\n- **Efficiency**: Up to " ++ pyStr max_efficiency
    ++ "%\n- **Max System Voltage**: " ++ pyStr msv
    ++ "V\n- **Dimensions**: " ++ pyStr lenv ++ "mm x " ++ pyStr widv
    ++ "mm\n- **Weight**: " ++ pyStr wkg
    ++ "kg\n- **Cell Type**: " ++ pyStr ct
    ++ "\n\n## Performance & Warranty\n- **Operating Temp**: " ++ pyStr otMin ++ "°C to " ++ pyStr otMax
    ++ "°C\n- **Temperature Coefficient (Pmax)**: " ++ pyStr tc
    ++ "%/°C\n- **Warranty**: " ++ pyStr wy ++ " Years (" ++ pyStr wdr ++ "% degradation/year)\n")

/-- `solar_parser.generate_summary`: the template, with every exception
replaced by the error-describing fallback string. -/
def generate_summary (data : JValue) : String :=
  match genSummaryCore data with
  | .ok s => s
  | .error e => "Error generating summary: " ++ e.msg

/-- `solar_parser.process_pdf`: existence check, text extraction (called
twice, the first result discarded), the model call, the key-order
comprehension, then summary generation over the canonical output. -/
def process_pdf (pdf_path : String) (pathExists : Bool)
    (pdf : Option (List (Option String))) (resp : BedrockResult)
    (jsonLoads : List Char → Option JValue) : Outcome (JObj × String) :=
  if pathExists then
    match extract_text_from_pdf pdf with
    | .raised e => .raised e
    | .exited n => .exited n
    | .ok _ =>
      match extract_text_from_pdf pdf with
      | .raised e => .raised e
      | .exited n => .exited n
      | .ok _text =>
        match parse_with_bedrock resp jsonLoads with
        | .raised e => .raised e
        | .exited n => .exited n
        | .ok raw =>
          match canonOutput raw with
          | .error e => .raised e
          | .ok out => .ok (out, generate_summary (.obj out))
  else .raised (.fileNotFoundError ("File not found: " ++ pdf_path))

/-- The single-extraction variant of `process_pdf` that §9 of the design
notes asks an implementer to write: identical except that the text is
extracted exactly once. -/
def process_pdf_once (pdf_path : String) (pathExists : Bool)
    (pdf : Option (List (Option String))) (resp : BedrockResult)
    (jsonLoads : List Char → Option JValue) : Outcome (JObj × String) :=
  if pathExists then
    match extract_text_from_pdf pdf with
    | .raised e => .raised e
    | .exited n => .exited n
    | .ok _text =>
      match parse_with_bedrock resp jsonLoads with
      | .raised e => .raised e
      | .exited n => .exited n
      | .ok raw =>
        match canonOutput raw with
        | .error e => .raised e
        | .ok out => .ok (out, generate_summary (.obj out))
  else .raised (.fileNotFoundError ("File not found: " ++ pdf_path))

/-- What the `/upload` request handler of `app.py` sends back: a JSON
response with a status code, or no response at all because an uncaught
`SystemExit` terminated the handler. -/
inductive WebResponse where
  | success (data : JObj) (summary : String)
  | failure (msg : String) (status : Nat)
  | terminated (code : Nat)

/-- Whether the handler produced any JSON response envelope at all. -/
def WebResponse.returnsEnvelope : WebResponse → Bool
  | .terminated _ => false
  | _ => true

/-- `filename.lower().endswith('.pdf')`. -/
def isPdfName (filename : String) : Bool :=
  (".pdf".toList).isSuffixOf (filename.toList.map Char.toLower)

/-- `app.upload_file`: the missing-part and empty-name checks, the extension
check, then `process_pdf` on the saved temporary file inside
`try ... except Exception`, which converts exceptions — but not
`SystemExit` — into a 500 error envelope. -/
def upload_file (hasFilePart : Bool) (filename : String)
    (pdf : Option (List (Option String))) (resp : BedrockResult)
    (jsonLoads : List Char → Option JValue) : WebResponse :=
  if !hasFilePart then .failure "No file part" 400
  else if filename = "" then .failure "No selected file" 400
  else if isPdfName filename then
    match process_pdf filename true pdf resp jsonLoads with
    | .ok (d, s) => .success d s
    | .raised e => .failure e.msg 500
    | .exited n => .terminated n
  else .failure "Invalid file type. Please upload a PDF." 400

/-- The backtick character of a markdown fence. -/
def tickChar : Char := Char.ofNat 96

/-- The JSON value a schema-conformant `efficiency_pct` entry holds:
`null` or a number. -/
def jnumOpt : Option ℚ → JValue
  | none => .null
  | some q => .num q


/-! ### Helper lemmas -/

theorem ok_bind {α β : Type} (a : α) (f : α → Except PyErr β) :
    (Except.ok a >>= f) = f a := rfl

theorem error_bind {α β : Type} (e : PyErr) (f : α → Except PyErr β) :
    ((Except.error e : Except PyErr α) >>= f) = .error e := rfl

theorem map_fst_filterMap_lookup (kvs : JObj) :
    ∀ ks : List String,
      (ks.filterMap (fun k => (kvs.lookup k).map (fun v => (k, v)))).map Prod.fst
        = ks.filter (fun k => (kvs.lookup k).isSome)
  | [] => rfl
  | k :: ks => by
    cases h : kvs.lookup k <;>
      simp [h, map_fst_filterMap_lookup kvs ks]

/-! ### The claims -/

/-- Claim C1: for every parsed JSON object, the canonical result of
`process_pdf` holds exactly those of the six known top-level keys that
exist in the input, in the fixed order, with their input values; unknown
keys are dropped and missing keys are absent rather than inserted as
null. -/
theorem claim_C1 (kvs : JObj) :
    ((canonicalize kvs).map Prod.fst = ordered_keys.filter (fun k => (kvs.lookup k).isSome))
    ∧ (∀ k v, ((k, v) ∈ canonicalize kvs ↔ k ∈ ordered_keys ∧ kvs.lookup k = some v))
    ∧ canonOutput (.obj kvs) = .ok (canonicalize kvs)
    ∧ canonicalize [("warranty", .num 10), ("notes", .str "extra"), ("product", .null)]
        = [("product", .null), ("warranty", .num 10)] := by
  refine ⟨map_fst_filterMap_lookup kvs ordered_keys, ?_, rfl, rfl⟩
  intro k v
  constructor
  · intro h
    rcases List.mem_filterMap.1 h with ⟨a, ha, hfa⟩
    rcases Option.map_eq_some'.1 hfa with ⟨w, hw, hkv⟩
    cases hkv
    exact ⟨ha, hw⟩
  · rintro ⟨hk, hv⟩
    exact List.mem_filterMap.2 ⟨k, hk, by rw [hv]; rfl⟩

/-- Claim C2 (code-bug demonstration): extraction failures, Bedrock
`ClientError`s and model-response parse failures inside a web upload all
call `sys.exit(1)`; the resulting `SystemExit` is not an `Exception`, so
the handler's `except Exception` never converts them into the 500-class
JSON error envelope — the handler terminates with no envelope at all. -/
theorem claim_C2 :
    (∀ (resp : BedrockResult) (jl : List Char → Option JValue),
        upload_file true "datasheet.pdf" none resp jl = .terminated 1)
    ∧ (∀ (m : String) (jl : List Char → Option JValue),
        upload_file true "datasheet.pdf" (some [some "Datasheet text"]) (.clientError m) jl
          = .terminated 1)
    ∧ upload_file true "datasheet.pdf" (some [some "Datasheet text"]) (.text "not json")
        (fun _ => none) = .terminated 1
    ∧ WebResponse.returnsEnvelope (.terminated 1) = false :=
  ⟨fun _ _ => rfl, fun _ _ => rfl, rfl, rfl⟩

/-- Claim C3 (code-bug demonstration): when the PDF cannot be opened
(`pdfplumber.open` raises) or parsed (a page yields no text and the
concatenation raises), `extract_text_from_pdf` catches the error and
terminates the process with exit status 1 instead of letting an
IOError-class exception propagate; the pipeline does abort with no partial
result and the outcome is independent of the Bedrock oracle, so no remote
call is made. -/
theorem claim_C3 :
    (∀ (path : String) (resp : BedrockResult) (jl : List Char → Option JValue),
        process_pdf path true none resp jl = .exited 1)
    ∧ (∀ (path : String) (resp : BedrockResult) (jl : List Char → Option JValue),
        process_pdf path true (some [some "page one", none]) resp jl = .exited 1)
    ∧ extract_text_from_pdf none = .exited 1 :=
  ⟨fun _ _ _ => rfl, fun _ _ _ => rfl, rfl⟩

set_option maxRecDepth 4000 in
/-- Claim C7: on the empty model output the canonical result has no
top-level keys, and summary generation succeeds with the default
placeholders — `Unknown` for the manufacturer and `Solar Module` for the
series in the product header. -/
theorem claim_C7 :
    canonOutput (.obj []) = .ok []
    ∧ canonicalize [] = []
    ∧ genSummaryCore (.obj [])
        = .ok ("\n## Product Overview\n**Unknown Solar Module**\n*Models*: \n*Power Range*: NoneW - NoneW\n\n## Key Specifications\n- **Efficiency**: Up to N/A%\n- **Max System Voltage**: NoneV\n- **Dimensions**: Nonemm x Nonemm\n- **Weight**: Nonekg\n- **Cell Type**: None\n\n## Performance & Warranty\n- **Operating Temp**: None°C to None°C\n- **Temperature Coefficient (Pmax)**: None%/°C\n- **Warranty**: None Years (None% degradation/year)\n")
    ∧ generate_summary (.obj [])
        = "\n## Product Overview\n**Unknown Solar Module**\n*Models*: \n*Power Range*: NoneW - NoneW\n\n## Key Specifications\n- **Efficiency**: Up to N/A%\n- **Max System Voltage**: NoneV\n- **Dimensions**: Nonemm x Nonemm\n- **Weight**: Nonekg\n- **Cell Type**: None\n\n## Performance & Warranty\n- **Operating Temp**: None°C to None°C\n- **Temperature Coefficient (Pmax)**: None%/°C\n- **Warranty**: None Years (None% degradation/year)\n" :=
  ⟨rfl, rfl, rfl, rfl⟩

/-- Claim C9: `process_pdf` extracts the text twice and discards the first
result; since extraction is a function of the file, the pipeline is
extensionally equal to the single-extraction variant on every input. -/
theorem claim_C9 (path : String) (pathExists : Bool)
    (pdf : Option (List (Option String))) (resp : BedrockResult)
    (jl : List Char → Option JValue) :
    process_pdf path pathExists pdf resp jl = process_pdf_once path pathExists pdf resp jl := by
  unfold process_pdf process_pdf_once
  cases pathExists
  · rfl
  · cases h : extract_text_from_pdf pdf <;> simp [h]

/-! ### Fence-stripping lemmas (claim C4) -/

theorem isPrefixOf_append_self : ∀ (a b : List Char), a.isPrefixOf (a ++ b) = true
  | [], _ => by simp [List.isPrefixOf]
  | c :: a, b => by simp [List.isPrefixOf, isPrefixOf_append_self a b]

theorem dropWhile_append_all_space {a : List Char} (b : List Char)
    (h : ∀ x ∈ a, pyIsSpace x = true) :
    (a ++ b).dropWhile pyIsSpace = b.dropWhile pyIsSpace := by
  rw [List.dropWhile_append]
  simp [List.dropWhile_eq_nil_iff.2 h]

theorem dropWhile_head_not_space :
    ∀ (l : List Char) (c : Char) (cs : List Char),
      l.dropWhile pyIsSpace = c :: cs → pyIsSpace c = false
  | [], c, cs, h => by simp at h
  | a :: t, c, cs, h => by
    by_cases hp : pyIsSpace a = true
    · exact dropWhile_head_not_space t c cs (by simpa [List.dropWhile_cons, hp] using h)
    · rw [List.dropWhile_cons, if_neg hp] at h
      cases h
      simpa using hp

theorem pyStrip_append_spaces (ws1 ws2 j : List Char)
    (h1 : ∀ x ∈ ws1, pyIsSpace x = true) (h2 : ∀ x ∈ ws2, pyIsSpace x = true) :
    pyStrip (ws1 ++ (j ++ ws2)) = pyStrip j := by
  unfold pyStrip
  rw [dropWhile_append_all_space _ h1]
  rcases hD : j.dropWhile pyIsSpace with _ | ⟨c, cs⟩
  · have hj : ∀ x ∈ j, pyIsSpace x = true := List.dropWhile_eq_nil_iff.1 hD
    rw [dropWhile_append_all_space _ hj, List.dropWhile_eq_nil_iff.2 h2]
  · have hc : pyIsSpace c = false := dropWhile_head_not_space j c cs hD
    have hjw : (j ++ ws2).dropWhile pyIsSpace = (c :: cs) ++ ws2 := by
      rw [List.dropWhile_append, hD]
      simp
    rw [hjw, List.reverse_append,
      dropWhile_append_all_space _ (fun x hx => h2 x (List.mem_reverse.1 hx))]

theorem fence_toList :
    "```json".toList = tickChar :: tickChar :: tickChar :: 'j' :: 's' :: 'o' :: 'n' :: [] := by
  decide

theorem ticks_toList : "```".toList = tickChar :: tickChar :: tickChar :: [] := by
  decide

theorem tick_not_space : pyIsSpace tickChar = false := by decide

theorem pyStrip_ends_not_space (c d : Char) (l : List Char)
    (hc : pyIsSpace c = false) (hd : pyIsSpace d = false) :
    pyStrip (c :: (l ++ [d])) = c :: (l ++ [d]) := by
  unfold pyStrip
  rw [List.dropWhile_cons, if_neg (by simp [hc])]
  rw [show (c :: (l ++ [d])).reverse = d :: (l.reverse ++ [c]) by simp]
  rw [List.dropWhile_cons, if_neg (by simp [hd])]
  simp

theorem fence_wrapped_shape (M : List Char) :
    ("```json".toList) ++ (M ++ ("```".toList))
      = tickChar :: ((tickChar :: tickChar :: 'j' :: 's' :: 'o' :: 'n'
          :: (M ++ (tickChar :: tickChar :: []))) ++ [tickChar]) := by
  rw [fence_toList, ticks_toList]
  simp [List.append_assoc]

theorem pyStrip_fence_wrapped (M : List Char) :
    pyStrip (("```json".toList) ++ (M ++ ("```".toList)))
      = ("```json".toList) ++ (M ++ ("```".toList)) := by
  rw [fence_wrapped_shape]
  exact pyStrip_ends_not_space _ _ _ tick_not_space tick_not_space

theorem cleanFence_wrapped (M : List Char) :
    cleanFence (("```json".toList) ++ (M ++ ("```".toList))) = M := by
  have hpre := isPrefixOf_append_self ("```json".toList) (M ++ ("```".toList))
  have hdrop : (("```json".toList) ++ (M ++ ("```".toList))).drop 7 = M ++ ("```".toList) := by
    rw [show (7 : ℕ) = ("```json".toList).length from rfl]
    exact List.drop_left _ _
  have hsuf : ("```".toList).isSuffixOf (M ++ ("```".toList)) = true := by
    show (("```".toList).reverse).isPrefixOf ((M ++ ("```".toList)).reverse) = true
    rw [List.reverse_append]
    exact isPrefixOf_append_self _ _
  have hlen : (M ++ ("```".toList)).length - 3 = M.length := by simp
  simp only [cleanFence, pyStrip_fence_wrapped, hpre, if_true, hdrop, hsuf, hlen]
  exact List.take_left _ _

/-- Claim C4: stripping the model client's markdown fences commutes with
JSON parsing — for any whitespace-insensitive parse function (as
`json.loads` is), parsing the cleaned-up fence-wrapped text equals parsing
the bare JSON text. -/
theorem claim_C4 (j ws1 ws2 : List Char) (parse : List Char → Option JValue)
    (hws1 : ∀ x ∈ ws1, pyIsSpace x = true) (hws2 : ∀ x ∈ ws2, pyIsSpace x = true)
    (hparse : ∀ s, parse s = parse (pyStrip s)) :
    parse (cleanFence (("```json".toList) ++ ((ws1 ++ (j ++ ws2)) ++ ("```".toList))))
      = parse j := by
  rw [cleanFence_wrapped, hparse (ws1 ++ (j ++ ws2)),
    pyStrip_append_spaces _ _ _ hws1 hws2, ← hparse j]

/-- Witness for claim C4 at the text `[1, 2]` wrapped in newline-padded
fences, with a concrete whitespace-insensitive parse function. -/
theorem claim_C4_witness :
    (fun (_ : List Char) => (none : Option JValue))
        (cleanFence (("```json".toList)
          ++ ((['\n'] ++ (("[1, 2]".toList) ++ ['\n'])) ++ ("```".toList))))
      = (fun (_ : List Char) => (none : Option JValue)) ("[1, 2]".toList) :=
  claim_C4 ("[1, 2]".toList) ['\n'] ['\n'] (fun _ => none)
    (by decide) (by decide) (fun _ => rfl)

/-! ### Power-range fragment lemmas (claims C8, C10) -/

/-- Claim C8: in the summary power-range line, an absent `wattage_range`
or an absent `min`/`max` field shows as the literal text `None`, formatted
as minW - maxW, because the absent value is stringified directly with no
substitution. -/
theorem claim_C8 (pkvs wkvs : JObj) :
    (pkvs.lookup "wattage_range" = none → powerRange (.obj pkvs) = .ok "NoneW - NoneW")
    ∧ (pkvs.lookup "wattage_range" = some (.obj wkvs) → wkvs.lookup "min" = none →
        powerRange (.obj pkvs)
          = .ok ("NoneW - " ++ pyStr ((wkvs.lookup "max").getD .null) ++ "W"))
    ∧ (pkvs.lookup "wattage_range" = some (.obj wkvs) → wkvs.lookup "max" = none →
        powerRange (.obj pkvs)
          = .ok (pyStr ((wkvs.lookup "min").getD .null) ++ "W - " ++ "None" ++ "W"))
    ∧ powerRange (.obj [("wattage_range", .obj [("max", .str "500")])])
        = .ok "NoneW - 500W" := by
  refine ⟨?_, ?_, ?_, rfl⟩
  · intro h
    simp only [powerRange, pyGetD, pyGet, h, Option.getD, ok_bind]
    rfl
  · intro h1 h2
    simp only [powerRange, pyGetD, pyGet, h1, h2, Option.getD, ok_bind]
    rfl
  · intro h1 h2
    simp only [powerRange, pyGetD, pyGet, h1, h2, Option.getD, ok_bind]
    rfl

theorem exbind_error {α β : Type} (x : Except PyErr α) (f : α → Except PyErr β)
    (h : ∀ a, ∃ e, f a = .error e) : ∃ e, (x >>= f) = .error e := by
  cases x with
  | error e => exact ⟨e, rfl⟩
  | ok a => exact h a

set_option maxRecDepth 4000 in
/-- Claim C10: when `product.wattage_range` is present but bound to JSON
null (as the prompt requires for a value missing from the datasheet),
summary generation raises while formatting the power-range line and
`generate_summary` returns the error-describing fallback string — unlike
an absent `wattage_range`, which yields a formatted summary with literal
`None` values. -/
theorem claim_C10 (dkvs pkvs : JObj)
    (hp : dkvs.lookup "product" = some (.obj pkvs))
    (hw : pkvs.lookup "wattage_range" = some .null) :
    (∃ e, genSummaryCore (.obj dkvs) = .error e
        ∧ generate_summary (.obj dkvs) = "Error generating summary: " ++ e.msg)
    ∧ generate_summary (.obj [("product", .obj [("manufacturer", .str "Acme")])])
        = "\n## Product Overview\n**Acme Solar Module**\n*Models*: \n*Power Range*: NoneW - NoneW\n\n## Key Specifications\n- **Efficiency**: Up to N/A%\n- **Max System Voltage**: NoneV\n- **Dimensions**: Nonemm x Nonemm\n- **Weight**: Nonekg\n- **Cell Type**: None\n\n## Performance & Warranty\n- **Operating Temp**: None°C to None°C\n- **Temperature Coefficient (Pmax)**: None%/°C\n- **Warranty**: None Years (None% degradation/year)\n" := by
  have hpr : powerRange (.obj pkvs)
      = .error (.attributeError "\x27NoneType\x27 object has no attribute \x27get\x27") := by
    unfold powerRange
    simp only [pyGetD, pyGet, hw, Option.getD, ok_bind, error_bind]
    rfl
  have hcore : ∃ e, genSummaryCore (.obj dkvs) = .error e := by
    unfold genSummaryCore
    simp only [pyGetD, pyGet, hp, hw, Option.getD, ok_bind, pure_bind, truthy,
      Bool.false_eq_true, if_false]
    refine exbind_error _ _ (fun me => ?_)
    refine exbind_error _ _ (fun models => ?_)
    rw [hpr]
    exact ⟨_, rfl⟩
  rcases hcore with ⟨e, he⟩
  refine ⟨⟨e, he, ?_⟩, rfl⟩
  unfold generate_summary
  rw [he]

set_option maxRecDepth 4000 in
/-- Witness for claim C10 at the record whose product is exactly
`wattage_range: null`. -/
theorem claim_C10_witness :
    (∃ e, genSummaryCore (.obj [("product", .obj [("wattage_range", .null)])]) = .error e
        ∧ generate_summary (.obj [("product", .obj [("wattage_range", .null)])])
          = "Error generating summary: " ++ e.msg)
    ∧ generate_summary (.obj [("product", .obj [("manufacturer", .str "Acme")])])
        = "\n## Product Overview\n**Acme Solar Module**\n*Models*: \n*Power Range*: NoneW - NoneW\n\n## Key Specifications\n- **Efficiency**: Up to N/A%\n- **Max System Voltage**: NoneV\n- **Dimensions**: Nonemm x Nonemm\n- **Weight**: Nonekg\n- **Cell Type**: None\n\n## Performance & Warranty\n- **Operating Temp**: None°C to None°C\n- **Temperature Coefficient (Pmax)**: None%/°C\n- **Warranty**: None Years (None% degradation/year)\n" :=
  claim_C10 [("product", .obj [("wattage_range", .null)])] [("wattage_range", .null)] rfl rfl

/-! ### Max-efficiency lemmas (claim C5) -/

theorem mapM_eff_of_forall (vs : List JValue) (effs : List (Option ℚ))
    (h : List.Forall₂ (fun v e => pyGet v "efficiency_pct" = .ok (jnumOpt e)) vs effs) :
    vs.mapM (fun v => pyGet v "efficiency_pct") = .ok (effs.map jnumOpt) := by
  induction h with
  | nil => rfl
  | cons h1 _ ih =>
    rw [List.mapM_cons, h1, ih]
    rfl

theorem filter_nonnull_map (effs : List (Option ℚ)) :
    (effs.map jnumOpt).filter (fun x => !x.isNull) = (effs.filterMap id).map JValue.num := by
  induction effs with
  | nil => rfl
  | cons e t ih =>
    cases e with
    | none => exact ih
    | some q => exact congrArg (fun l => JValue.num q :: l) ih

theorem foldlM_pyMax2_nums :
    ∀ (qs : List ℚ) (q : ℚ),
      (qs.map JValue.num).foldlM pyMax2 (.num q) = .ok (.num (qs.foldl max q))
  | [], _ => rfl
  | a :: t, q => by
    simp [List.foldlM_cons, pyMax2, ok_bind, foldlM_pyMax2_nums t (max q a)]


theorem foldl_max_mem (qs : List ℚ) : ∀ q : ℚ, qs.foldl max q ∈ q :: qs := by
  induction qs with
  | nil => intro q; simp
  | cons a t ih =>
    intro q
    rw [List.foldl_cons]
    rcases List.mem_cons.1 (ih (max q a)) with h | h
    · rcases max_choice q a with hq | hq
      · rw [h, hq]; exact List.mem_cons_self _ _
      · rw [h, hq]; exact List.mem_cons.2 (Or.inr (List.mem_cons_self _ _))
    · exact List.mem_cons.2 (Or.inr (List.mem_cons.2 (Or.inr h)))

theorem le_foldl_max (qs : List ℚ) : ∀ q x : ℚ, x ∈ q :: qs → x ≤ qs.foldl max q := by
  induction qs with
  | nil =>
    intro q x hx
    rw [List.mem_singleton] at hx
    simp [hx]
  | cons a t ih =>
    intro q x hx
    rw [List.foldl_cons]
    rcases List.mem_cons.1 hx with rfl | hx1
    · exact le_trans (le_max_left x a) (ih _ _ (List.mem_cons_self _ _))
    · rcases List.mem_cons.1 hx1 with rfl | hx2
      · exact le_trans (le_max_right q x) (ih _ _ (List.mem_cons_self _ _))
      · exact ih _ _ (List.mem_cons.2 (Or.inr hx2))

/-- Claim C5: the summary's reported max efficiency is the maximum of all
non-null `efficiency_pct` values across `power_variants`, and the text
`N/A` when no non-null value is present; in particular the variants
21.2 / null / 22.5 report 22.5. -/
theorem claim_C5 (elec : JValue) (vs : List JValue) (effs : List (Option ℚ))
    (hpv : pyGetD elec "power_variants" (.arr []) = .ok (.arr vs))
    (heff : List.Forall₂ (fun v e => pyGet v "efficiency_pct" = .ok (jnumOpt e)) vs effs) :
    (maxEfficiencyOf elec
        = .ok (match effs.filterMap id with
                | [] => JValue.str "N/A"
                | q :: qs => JValue.num (qs.foldl max q)))
    ∧ (∀ q qs, effs.filterMap id = q :: qs →
        qs.foldl max q ∈ q :: qs ∧ ∀ x ∈ q :: qs, x ≤ qs.foldl max q)
    ∧ maxEfficiencyOf (.obj [("power_variants", .arr
          [.obj [("efficiency_pct", .num 21.2)], .obj [("efficiency_pct", .null)],
           .obj [("efficiency_pct", .num 22.5)]])])
        = .ok (.num 22.5) := by
  refine ⟨?_, fun q qs _ => ⟨foldl_max_mem qs q, le_foldl_max qs q⟩, ?_⟩
  · unfold maxEfficiencyOf
    rw [hpv]
    simp only [ok_bind, iterList]
    rw [mapM_eff_of_forall vs effs heff]
    simp only [ok_bind]
    rw [filter_nonnull_map]
    rcases h : effs.filterMap id with _ | ⟨q, qs⟩
    · rfl
    · simp [pyMax, foldlM_pyMax2_nums]
  · show (Except.ok (JValue.num (max (21.2 : ℚ) 22.5)) : Except PyErr JValue)
      = .ok (.num 22.5)
    rw [max_eq_right (by norm_num : (21.2 : ℚ) ≤ 22.5)]

/-- Witness for claim C5 at the spec's example variants. -/
theorem claim_C5_witness :
    maxEfficiencyOf (.obj [("power_variants", .arr
          [.obj [("efficiency_pct", .num 21.2)], .obj [("efficiency_pct", .null)],
           .obj [("efficiency_pct", .num 22.5)]])])
      = .ok (.num 22.5) :=
  (claim_C5 (.obj [("power_variants", .arr
          [.obj [("efficiency_pct", .num 21.2)], .obj [("efficiency_pct", .null)],
           .obj [("efficiency_pct", .num 22.5)]])])
      [.obj [("efficiency_pct", .num 21.2)], .obj [("efficiency_pct", .null)],
       .obj [("efficiency_pct", .num 22.5)]]
      [some 21.2, none, some 22.5] rfl
      (List.Forall₂.cons rfl (List.Forall₂.cons rfl
        (List.Forall₂.cons rfl List.Forall₂.nil)))).2.2

/-- Claim C6: summary generation is the only recovered step — when its body
raises, `generate_summary` returns the error-describing fallback string, so
a pipeline whose extraction, model call and canonicalization succeeded
still returns the canonical result with a renderable summary; every other
step's failure aborts the call (exception or process exit). -/
theorem claim_C6 :
    (∀ (d : JValue) (e : PyErr), genSummaryCore d = .error e →
        generate_summary d = "Error generating summary: " ++ e.msg)
    ∧ (∀ (path : String) (pdf : Option (List (Option String))) (t : String)
          (resp : BedrockResult) (jl : List Char → Option JValue) (raw : JValue) (out : JObj),
        extract_text_from_pdf pdf = .ok t → parse_with_bedrock resp jl = .ok raw →
        canonOutput raw = .ok out →
        process_pdf path true pdf resp jl = .ok (out, generate_summary (.obj out)))
    ∧ (∀ (path : String) (pdf : Option (List (Option String))) (t : String)
          (resp : BedrockResult) (jl : List Char → Option JValue) (raw : JValue) (e : PyErr),
        extract_text_from_pdf pdf = .ok t → parse_with_bedrock resp jl = .ok raw →
        canonOutput raw = .error e →
        process_pdf path true pdf resp jl = .raised e)
    ∧ (∀ (path : String) (pdf : Option (List (Option String)))
          (resp : BedrockResult) (jl : List Char → Option JValue) (n : Nat),
        extract_text_from_pdf pdf = .exited n →
        process_pdf path true pdf resp jl = .exited n)
    ∧ (∀ (path : String) (pdf : Option (List (Option String))) (t : String)
          (resp : BedrockResult) (jl : List Char → Option JValue) (n : Nat),
        extract_text_from_pdf pdf = .ok t → parse_with_bedrock resp jl = .exited n →
        process_pdf path true pdf resp jl = .exited n)
    ∧ generate_summary (.obj [("electrical_specs", .str "oops")])
        = "Error generating summary: \x27str\x27 object has no attribute \x27get\x27" := by
  refine ⟨?_, ?_, ?_, ?_, ?_, rfl⟩
  · intro d e h
    unfold generate_summary
    rw [h]
  · intro path pdf t resp jl raw out h1 h2 h3
    simp [process_pdf, h1, h2, h3]
  · intro path pdf t resp jl raw e h1 h2 h3
    simp [process_pdf, h1, h2, h3]
  · intro path pdf resp jl n h1
    simp [process_pdf, h1]
  · intro path pdf t resp jl n h1 h2
    simp [process_pdf, h1, h2]

end SolarVerify
